import Mathlib

/-!
Verification of the ice-shop storefront (src/script.js and the unnamed
spreadsheet-webhook variant, src/unnamed/part_000).

Shallow embedding conventions:
* JS strings are Lean `String`; JS string truthiness (`if (name)`) is `name ≠ ""`.
* Numeric order ids (`Date.now()`) and timestamps are `Nat`; ISO-8601
  `orderDate` strings are modelled by their timestamp value, since the only
  operation applied to them is `new Date(s)` comparison.
* Prices are `Rat` (JS decimal numbers; no float rounding is exercised by the
  properties below, which are exact identities and comparisons).
* A resolved promise carrying `x` is a plain value; a promise that either
  resolves with `x` or rejects with an error message is `Except String x`.
  A JS function whose body is wrapped in try/catch is embedded as a total
  function that pattern-matches on the `Except` outcomes of its awaited calls.
* DOM side effects (alerts, innerHTML replacement, modal visibility,
  localStorage writes) are recorded in explicit result structures.
-/

namespace IceShop

/-- A catalog product as served by products.json and consumed by script.js. -/
structure Product where
  id : Nat
  name : String
  description : String
  price : Rat
  image : String
  ingredients : String
deriving Repr, DecidableEq

/-- The single pending cart line item stored under localStorage key "cartItem"
(built in initProductDetailPage from the selected product and quantity). -/
structure CartItem where
  id : Nat
  name : String
  price : Rat
  quantity : Nat
  image : String
deriving Repr, DecidableEq

/-- A line item inside a persisted order. The source deliberately omits the
cart item's `image` property when building this record ("Removed image
property to keep the order data clean"), so this structure has no image
field. -/
structure OrderItem where
  id : Nat
  name : String
  price : Rat
  quantity : Nat
deriving Repr, DecidableEq

/-- The Order record built in the order-form submit handler of initOrderPage. -/
structure Order where
  id : Nat
  customerId : String
  customerName : String
  customerEmail : String
  customerPhone : String
  customerAddress : String
  deliveryType : String
  items : List OrderItem
  total : Rat
  orderDate : Nat
  status : String
deriving Repr, DecidableEq

/-- Whether the character list `pat` is a prefix of `s` (Boolean, executable). -/
def charPrefixb : List Char → List Char → Bool
  | [], _ => true
  | _ :: _, [] => false
  | p :: ps, c :: cs => p == c && charPrefixb ps cs

/-- Whether the character list `pat` occurs contiguously inside `s`. -/
def charSubb (pat : List Char) : List Char → Bool
  | [] => charPrefixb pat []
  | c :: cs => charPrefixb pat (c :: cs) || charSubb pat cs

/-- JS `s.includes(pat)` on strings. -/
def strIncludes (s pat : String) : Bool := charSubb pat.data s.data

/-- The innerHTML written to the product grid when the catalog fetch fails for
a reason other than the local-file/CORS case (script.js loadProducts). -/
def couldNotLoadHtml : String :=
  "<p style=\"color: var(--primary-color);\">Could not load flavors. Please run this page through a web server.</p>"

/-- Result of one run of loadProducts: the final value of the global
`allProducts`, the grid innerHTML replacement if one happened, and whether the
local-file warning path was taken. -/
structure LoadProductsResult where
  allProducts : List Product
  gridHtml : Option String
  warnedLocalFile : Bool
deriving Repr, DecidableEq

/-- loadProducts (script.js lines 13-44 / part_000 lines 13-39).
`fetchOutcome` is the combined outcome of `fetch` + `response.ok` check +
`response.json()`: `.ok ps` when all succeed, `.error msg` when any step
throws (network rejection, the explicit `HTTP error!` throw, or a JSON parse
error) — the catch block only inspects the error's message. `gridPresent`
models `document.getElementById("product-grid")` returning an element. -/
def loadProducts (protocol : String) (gridPresent : Bool)
    (fetchOutcome : Except String (List Product)) : LoadProductsResult :=
  match fetchOutcome with
  | .ok ps => { allProducts := ps, gridHtml := none, warnedLocalFile := false }
  | .error msg =>
    if protocol = "file:" ∨ strIncludes msg "Failed to fetch" then
      { allProducts := [], gridHtml := none, warnedLocalFile := true }
    else
      { allProducts := [],
        gridHtml := if gridPresent then some couldNotLoadHtml else none,
        warnedLocalFile := false }

/-- The order record constructed in the submit handler (script.js lines
417-437 / part_000 lines 396-416): id is Date.now(), customerId is the email,
items is a one-element list copied from the cart item without its image, and
total is price * quantity. -/
def buildOrder (now : Nat) (name email phone address deliveryType : String)
    (item : CartItem) (orderDate : Nat) : Order :=
  { id := now
    customerId := email
    customerName := name
    customerEmail := email
    customerPhone := phone
    customerAddress := address
    deliveryType := deliveryType
    items := [{ id := item.id, name := item.name, price := item.price,
                quantity := item.quantity }]
    total := item.price * item.quantity
    orderDate := orderDate
    status := "pending" }

/-- The missingFields array built when validation fails: push "Name" if !name,
"Email" if !email, "Phone" if !phone, in that order. -/
def missingFieldsList (name email phone : String) : List String :=
  (if name = "" then ["Name"] else []) ++
  (if email = "" then ["Email"] else []) ++
  (if phone = "" then ["Phone"] else [])

/-- The aggregated validation alert text:
"Please fill in the following required fields: " + missingFields.join(", ") + ".". -/
def missingFieldsMessage (fields : List String) : String :=
  "Please fill in the following required fields: " ++
    String.intercalate ", " fields ++ "."

/-- The alert shown when the cart is empty at submission time. -/
def noItemsMsg : String := "No items in cart. Please select an item first."

/-- The retryable alert shown when saveOrder resolves false or rejects. -/
def saveErrorMsg : String := "There was an error saving your order. Please try again."

/-- Observable outcome of one submit-handler run: the orders passed to
saveOrder (at most one per click), the cartItem key after the run, whether the
confirmation modal was made visible, the alert raised if any, and whether an
error was logged to the console. -/
structure SubmitResult where
  backendCalls : List Order
  cartAfter : Option CartItem
  confirmationShown : Bool
  alertMsg : Option String
  loggedError : Bool
deriving Repr, DecidableEq

/-- The order-form submit handler (script.js lines 398-466 / part_000 lines
377-445). `cart` is localStorage "cartItem"; `saveOutcome` is the saveOrder
promise: `.ok b` when it resolves with boolean b, `.error e` when it rejects
(handled by the `.catch` clause). JS `if (name && email && phone)` is the
conjunction of the three non-emptiness tests. -/
def submitOrder (now orderDate : Nat) (name email phone address deliveryType : String)
    (cart : Option CartItem) (saveOutcome : Except String Bool) : SubmitResult :=
  if name ≠ "" ∧ email ≠ "" ∧ phone ≠ "" then
    match cart with
    | some item =>
      let order := buildOrder now name email phone address deliveryType item orderDate
      match saveOutcome with
      | .ok true =>
        { backendCalls := [order], cartAfter := none, confirmationShown := true,
          alertMsg := none, loggedError := false }
      | .ok false =>
        { backendCalls := [order], cartAfter := cart, confirmationShown := false,
          alertMsg := some saveErrorMsg, loggedError := false }
      | .error _ =>
        { backendCalls := [order], cartAfter := cart, confirmationShown := false,
          alertMsg := some saveErrorMsg, loggedError := true }
    | none =>
      { backendCalls := [], cartAfter := cart, confirmationShown := false,
        alertMsg := some noItemsMsg, loggedError := false }
  else
    { backendCalls := [], cartAfter := cart, confirmationShown := false,
      alertMsg := some (missingFieldsMessage (missingFieldsList name email phone)),
      loggedError := false }

/-- One attempted form submission, bundling the handler's inputs. -/
structure SubmitInput where
  now : Nat
  orderDate : Nat
  name : String
  email : String
  phone : String
  address : String
  deliveryType : String
  cart : Option CartItem
  saveOutcome : Except String Bool

/-- Observable outcome of initOrderPage in the document-database variant
(script.js lines 351-473): where the page navigated, the alert raised at the
gate, and the submit handler's effects if a submission later fires. -/
structure OrderPageResult where
  redirectedTo : Option String
  gateAlert : Option String
  backendCalls : List Order
  cartAfter : Option CartItem
  confirmationShown : Bool
deriving Repr, DecidableEq

/-- initOrderPage, document-database variant (script.js lines 351-473): the
whole body runs inside `isUserSignedIn().then(...)`; when not signed in it
alerts, navigates to login.html and returns before the form handler is
installed, so no submission can construct an order or reach saveOrder. When
signed in and `submission` fires, the handler behaves as `submitOrder`. -/
def initOrderPage (isSignedIn : Bool) (cart : Option CartItem)
    (submission : Option SubmitInput) : OrderPageResult :=
  if isSignedIn then
    match submission with
    | none =>
      { redirectedTo := none, gateAlert := none, backendCalls := [],
        cartAfter := cart, confirmationShown := false }
    | some s =>
      let r := submitOrder s.now s.orderDate s.name s.email s.phone s.address
        s.deliveryType s.cart s.saveOutcome
      { redirectedTo := none, gateAlert := none, backendCalls := r.backendCalls,
        cartAfter := r.cartAfter, confirmationShown := r.confirmationShown }
  else
    { redirectedTo := some "login.html",
      gateAlert := some "Please log in to place an order.",
      backendCalls := [], cartAfter := cart, confirmationShown := false }

/-- A parsed response body from the spreadsheet-webhook backend:
`{success: boolean, error?: string}`. -/
structure SheetsResult where
  success : Bool
  error : String
deriving Repr, DecidableEq

/-- Observable outcome of one updateOrderStatus call: the JS return value
(`none` models `undefined`), the order posted to the backend if the write was
attempted, the alerts raised, whether an error was logged, and whether the
admin list was reloaded. -/
structure UpdateStatusEffects where
  returned : Option Bool
  posted : Option Order
  alerts : List String
  loggedError : Bool
  reloaded : Bool
deriving Repr, DecidableEq

/-- The try-block of updateOrderStatus, spreadsheet-webhook variant (part_000
lines 571-609). `fetched` is the result of `await getOrderById(orderId)`
(that helper catches internally and resolves with an order or null, never
rejecting); `writeOutcome o` is the fetch+json outcome of POSTing
`{action: "updateOrder", order: o}`: `.ok r` when it resolves with body r,
`.error e` when fetch or json() rejects (escaping to the catch block). -/
def updateOrderStatusBody (fetched : Option Order)
    (writeOutcome : Order → Except String SheetsResult)
    (orderId : Nat) (newStatus : String) : Except String UpdateStatusEffects :=
  match fetched with
  | none =>
    .ok { returned := none, posted := none,
          alerts := [s!"Order #{orderId} not found"],
          loggedError := false, reloaded := false }
  | some order =>
    let updated := { order with status := newStatus }
    match writeOutcome updated with
    | .error e => .error e
    | .ok r =>
      if r.success then
        .ok { returned := none, posted := some updated,
              alerts := [s!"Order #{orderId} status updated to {newStatus}"],
              loggedError := false, reloaded := true }
      else
        .ok { returned := none, posted := some updated,
              alerts := [s!"Error updating order: {r.error}"],
              loggedError := false, reloaded := false }

/-- updateOrderStatus, spreadsheet-webhook variant: the whole body is wrapped
in try/catch; the catch logs the error and alerts, and — like every other
path of the function — falls off the end, so the promise resolves with
undefined. (The document-database variant, script.js lines 560-577, has the
same shape: no path returns a boolean.) -/
def updateOrderStatus (fetched : Option Order)
    (writeOutcome : Order → Except String SheetsResult)
    (orderId : Nat) (newStatus : String) : UpdateStatusEffects :=
  match updateOrderStatusBody fetched writeOutcome orderId newStatus with
  | .ok r => r
  | .error e =>
    { returned := none, posted := none,
      alerts := [s!"Error updating order status: {e}"],
      loggedError := true, reloaded := false }

/-- The action rendered in an admin order card's order-actions area (part_000
lines 709-715): a Mark-as-Complete button carrying the order id and the
status it will submit, or the static Completed label. -/
inductive AdminAction
  | markCompleteButton (orderId : Nat) (submitsStatus : String)
  | completedLabel
deriving Repr, DecidableEq

/-- Per-order admin rendering decision: only a pending order gets the button,
and its click handler calls `updateOrderStatus(orderId, "completed")`
(part_000 lines 760-766), recorded here as the submitted status. -/
def renderOrderAction (order : Order) : AdminAction :=
  if order.status = "pending" then .markCompleteButton order.id "completed"
  else .completedLabel

/-- The comparator of `orders.sort((a, b) => new Date(b.orderDate) - new
Date(a.orderDate))`: a precedes b exactly when the comparator is ≤ 0, i.e.
b.orderDate ≤ a.orderDate. -/
def orderDateDesc (a b : Order) : Bool := b.orderDate ≤ a.orderDate

/-- The client-side sort applied in loadAndDisplayOrders before rendering. -/
def sortOrders (orders : List Order) : List Order :=
  orders.mergeSort orderDateDesc

/-- The sequence of orders rendered by loadAndDisplayOrders (part_000 lines
691-703): an empty fetch renders "No orders found." and nothing else;
otherwise the fetched orders are sorted newest-first and rendered in order. -/
def loadAndDisplayOrders (orders : List Order) : List Order :=
  if orders = [] then [] else sortOrders orders

/-!
Document-database (Firestore) adapter model, script.js lines 482-557.

An id value is either the client-generated `Date.now()` number stored inside
the order data by saveOrder, or a backend-assigned opaque document-id string.
A collection is a list of (document key, document data) pairs; document data
is split into its `id` field (if present) and the rest of its fields, which
is all the spread/override plumbing below ever distinguishes. The theorems
about this model concern the successful paths of the four operations; each
operation's catch block (returning false / [] / null) does not touch the id
plumbing.
-/

/-- An order-record identifier in the document-database variant. -/
inductive FsId
  | clientNum (n : Nat)
  | docStr (s : String)
deriving Repr, DecidableEq

/-- Stored document data: the `id` field the data may contain, and the rest
of the order's fields (generic, since only the id key is ever rewritten). -/
structure FsData (α : Type) where
  idField : Option FsId
  rest : α
deriving Repr, DecidableEq

/-- An order record as held by callers (built or fetched). -/
structure FsRecord (α : Type) where
  id : FsId
  rest : α
deriving Repr, DecidableEq

/-- A collection of order documents keyed by document id. -/
abbrev FsStore (α : Type) : Type := List (FsId × FsData α)

/-- saveOrder (script.js lines 482-496), successful path:
`db.collection("orders").add({...order, createdAt: serverTimestamp})` stores
the whole order — its client-generated `id` field included — under a fresh
backend-assigned key `genKey`, and resolves true. -/
def saveOrder (genKey : String) (order : FsRecord α) (store : FsStore α) :
    FsStore α :=
  store ++ [(.docStr genKey, { idField := some order.id, rest := order.rest })]

/-- The record built from a fetched document by `{id: doc.id, ...data}`:
object spread lets a later property win, so a stored `id` field overrides the
document key. -/
def docToRecord (key : FsId) (d : FsData α) : FsRecord α :=
  { id := d.idField.getD key, rest := d.rest }

/-- getAllOrders (script.js lines 499-520), successful path: every document
in the collection, passed through the `{id: doc.id, ...data}` merge. (The
createdAt ordering of the query does not affect which id each record
carries.) -/
def getAllOrders (store : FsStore α) : List (FsRecord α) :=
  store.map fun p => docToRecord p.1 p.2

/-- getOrderById (script.js lines 523-541), successful path:
`doc(orderId).get()` looks the key up, and an existing document is returned
through the same `{id: doc.id, ...data}` merge; a missing key yields null. -/
def getOrderById (store : FsStore α) (orderId : FsId) : Option (FsRecord α) :=
  (store.find? fun p => p.1 = orderId).map fun p => docToRecord p.1 p.2

/-- The document key addressed by updateOrder (script.js lines 544-557):
`const {id, ...orderData} = updatedOrder; doc(id).update(orderData)` — the
write goes to the document keyed by the record's own id field. -/
def updateOrderTargetKey (r : FsRecord α) : FsId := r.id

/-- updateOrder, successful path: the document at the record's id key gets
its non-id fields replaced (the `id` field was destructured away, so a stored
idField is not overwritten). -/
def updateOrder (r : FsRecord α) (store : FsStore α) : FsStore α :=
  store.map fun p =>
    if p.1 = r.id then (p.1, { idField := p.2.idField, rest := r.rest }) else p

/-! Concrete sample values used by witnesses and counterexamples. -/

/-- A sample cart item. -/
def sampleItem : CartItem :=
  { id := 3, name := "Mint", price := 9/2, quantity := 2, image := "mint.jpg" }

/-- A sample pending order. -/
def samplePending : Order :=
  buildOrder 111 "Ada" "ada@x.io" "555" "1 Way" "pickup" sampleItem 1000

/-- A sample completed order. -/
def sampleCompleted : Order := { samplePending with status := "completed" }

/-- Claim C1: for a submission with non-empty name, email and phone and a
cart item present, a successful saveOrder call clears the cart item and shows
the confirmation modal; a failed or rejected call leaves the cart item
unchanged, shows no confirmation, and raises the retryable save-error alert;
either way exactly one createOrder call is made for the single click. -/
theorem submit_valid_cart_success_clears_failure_retains
    (now orderDate : Nat) (name email phone address deliveryType : String)
    (item : CartItem) (saveOutcome : Except String Bool)
    (hn : name ≠ "") (he : email ≠ "") (hp : phone ≠ "") :
    (submitOrder now orderDate name email phone address deliveryType
        (some item) saveOutcome).backendCalls =
      [buildOrder now name email phone address deliveryType item orderDate] ∧
    (saveOutcome = .ok true →
      (submitOrder now orderDate name email phone address deliveryType
          (some item) saveOutcome).cartAfter = none ∧
      (submitOrder now orderDate name email phone address deliveryType
          (some item) saveOutcome).confirmationShown = true) ∧
    (saveOutcome ≠ .ok true →
      (submitOrder now orderDate name email phone address deliveryType
          (some item) saveOutcome).cartAfter = some item ∧
      (submitOrder now orderDate name email phone address deliveryType
          (some item) saveOutcome).confirmationShown = false ∧
      (submitOrder now orderDate name email phone address deliveryType
          (some item) saveOutcome).alertMsg = some saveErrorMsg) := by
  refine ⟨?_, ?_, ?_⟩
  · rcases saveOutcome with e | b
    · simp [submitOrder, hn, he, hp]
    · cases b <;> simp [submitOrder, hn, he, hp]
  · intro h
    subst h
    simp [submitOrder, hn, he, hp]
  · intro h
    rcases saveOutcome with e | b
    · simp [submitOrder, hn, he, hp]
    · cases b
      · simp [submitOrder, hn, he, hp]
      · exact absurd rfl h

/-- Witness for C1 at a concrete successful submission. -/
theorem submit_valid_cart_success_clears_failure_retains_witness :
    (submitOrder 111 1000 "Ada" "ada@x.io" "555" "1 Way" "pickup"
        (some sampleItem) (.ok true)).cartAfter = none ∧
    (submitOrder 111 1000 "Ada" "ada@x.io" "555" "1 Way" "pickup"
        (some sampleItem) (.ok true)).confirmationShown = true :=
  (submit_valid_cart_success_clears_failure_retains 111 1000 "Ada" "ada@x.io"
    "555" "1 Way" "pickup" sampleItem (.ok true) (by decide) (by decide)
    (by decide)).2.1 rfl

/-- Claim C2: when at least one of name, email, phone is empty, the submit
handler makes no backend call and raises the single aggregated alert whose
field list contains exactly the empty fields among Name, Email, Phone. -/
theorem submit_missing_fields_no_backend_exact_list
    (now orderDate : Nat) (name email phone address deliveryType : String)
    (cart : Option CartItem) (saveOutcome : Except String Bool)
    (h : name = "" ∨ email = "" ∨ phone = "") :
    (submitOrder now orderDate name email phone address deliveryType
        cart saveOutcome).backendCalls = [] ∧
    (submitOrder now orderDate name email phone address deliveryType
        cart saveOutcome).alertMsg =
      some (missingFieldsMessage (missingFieldsList name email phone)) ∧
    ∀ f, f ∈ missingFieldsList name email phone ↔
      ((f = "Name" ∧ name = "") ∨ (f = "Email" ∧ email = "") ∨
        (f = "Phone" ∧ phone = "")) := by
  have hcond : ¬ (name ≠ "" ∧ email ≠ "" ∧ phone ≠ "") := by tauto
  refine ⟨by simp [submitOrder, hcond], by simp [submitOrder, hcond], ?_⟩
  intro f
  by_cases h1 : name = "" <;> by_cases h2 : email = "" <;>
    by_cases h3 : phone = "" <;>
      simp [missingFieldsList, h1, h2, h3] <;> tauto

/-- Witness for C2 with name and phone empty. -/
theorem submit_missing_fields_no_backend_exact_list_witness :
    (submitOrder 1 2 "" "ada@x.io" "" "" "pickup" (some sampleItem)
        (.ok true)).backendCalls = [] ∧
    (submitOrder 1 2 "" "ada@x.io" "" "" "pickup" (some sampleItem)
        (.ok true)).alertMsg =
      some (missingFieldsMessage (missingFieldsList "" "ada@x.io" "")) ∧
    ("Name" ∈ missingFieldsList "" "ada@x.io" "" ↔
      (("Name" : String) = "Name" ∧ ("" : String) = "") ∨
        (("Name" : String) = "Email" ∧ ("ada@x.io" : String) = "") ∨
        (("Name" : String) = "Phone" ∧ ("" : String) = "")) :=
  ⟨(submit_missing_fields_no_backend_exact_list 1 2 "" "ada@x.io" "" ""
      "pickup" (some sampleItem) (.ok true) (by decide)).1,
   (submit_missing_fields_no_backend_exact_list 1 2 "" "ada@x.io" "" ""
      "pickup" (some sampleItem) (.ok true) (by decide)).2.1,
   (submit_missing_fields_no_backend_exact_list 1 2 "" "ada@x.io" "" ""
      "pickup" (some sampleItem) (.ok true) (by decide)).2.2 "Name"⟩

/-- Claim C3: every order built at submission carries exactly one line item —
a copy of the cart item without its image field (the OrderItem type has no
image field) — and its total equals that single item's price * quantity, for
any positive quantity and non-negative price. -/
theorem buildOrder_total_and_single_imageless_item
    (now orderDate : Nat) (name email phone address deliveryType : String)
    (item : CartItem) (hq : 0 < item.quantity) (hpr : 0 ≤ item.price) :
    (buildOrder now name email phone address deliveryType item
        orderDate).items =
      [{ id := item.id, name := item.name, price := item.price,
         quantity := item.quantity }] ∧
    (buildOrder now name email phone address deliveryType item
        orderDate).total = item.price * item.quantity := by
  exact ⟨rfl, rfl⟩

/-- Witness for C3 at the sample cart item (quantity 2, price 9/2). -/
theorem buildOrder_total_and_single_imageless_item_witness :
    0 < sampleItem.quantity ∧ 0 ≤ sampleItem.price ∧
    (buildOrder 111 "Ada" "ada@x.io" "555" "1 Way" "pickup" sampleItem
        1000).total = sampleItem.price * sampleItem.quantity :=
  ⟨by decide, by norm_num [sampleItem],
   (buildOrder_total_and_single_imageless_item 111 1000 "Ada" "ada@x.io"
      "555" "1 Way" "pickup" sampleItem (by decide)
      (by norm_num [sampleItem])).2⟩

/-- Counterexample to C4 as stated: at a write that succeeds
(getOrderById finds the order and the backend answers success), the call does
not return true — it resolves with undefined (modelled as `none`), so
updateOrderStatus does not return a success boolean that is true on
success. -/
theorem updateOrderStatus_success_returns_no_boolean :
    (updateOrderStatus (some samplePending)
        (fun _ => .ok { success := true, error := "" }) 111
        "completed").returned ≠ some true ∧
    (updateOrderStatus (some samplePending)
        (fun _ => .ok { success := true, error := "" }) 111
        "completed").returned = none := by
  exact ⟨by decide, rfl⟩

/-- Claim C4 amended: updateOrderStatus never raises to its caller — every
rejection of its awaited calls is absorbed by its catch block, which logs the
error and alerts — but it does not return a success boolean: on every path,
success included, it resolves with undefined (`none`); the outcome is
signalled only through alerts, the console log and the list reload. -/
theorem updateOrderStatus_never_raises_resolves_undefined
    (fetched : Option Order) (writeOutcome : Order → Except String SheetsResult)
    (orderId : Nat) (newStatus : String) :
    (updateOrderStatus fetched writeOutcome orderId newStatus).returned =
      none ∧
    (∀ e, updateOrderStatusBody fetched writeOutcome orderId newStatus =
        .error e →
      (updateOrderStatus fetched writeOutcome orderId
          newStatus).loggedError = true ∧
      (updateOrderStatus fetched writeOutcome orderId newStatus).alerts =
        [s!"Error updating order status: {e}"]) := by
  unfold updateOrderStatus updateOrderStatusBody
  rcases fetched with _ | order
  · simp
  · rcases h : writeOutcome { order with status := newStatus } with e | r
    · simp [h]
    · by_cases hs : r.success <;> simp [h, hs]

/-- Witness for C4's amended claim at a rejected backend write. -/
theorem updateOrderStatus_never_raises_resolves_undefined_witness :
    (updateOrderStatus (some samplePending) (fun _ => .error "boom") 111
        "completed").returned = none ∧
    (updateOrderStatus (some samplePending) (fun _ => .error "boom") 111
        "completed").loggedError = true :=
  ⟨(updateOrderStatus_never_raises_resolves_undefined (some samplePending)
      (fun _ => .error "boom") 111 "completed").1,
   ((updateOrderStatus_never_raises_resolves_undefined (some samplePending)
      (fun _ => .error "boom") 111 "completed").2 "boom" rfl).1⟩

/-- Claim C5: whatever sequence of orders the adapter returns, the list the
admin dashboard renders is non-increasing by orderDate: for every adjacent
pair (a, b), a.orderDate ≥ b.orderDate. -/
theorem loadAndDisplayOrders_sorted_desc (orders : List Order) :
    List.Chain' (fun a b => a.orderDate ≥ b.orderDate)
      (loadAndDisplayOrders orders) := by
  unfold loadAndDisplayOrders
  split
  · simp
  · have htrans : ∀ a b c : Order, orderDateDesc a b → orderDateDesc b c →
        orderDateDesc a c := by
      intro a b c hab hbc
      simp only [orderDateDesc, decide_eq_true_eq] at *
      omega
    have htotal : ∀ a b : Order, orderDateDesc a b || orderDateDesc b a := by
      intro a b
      simp only [orderDateDesc, Bool.or_eq_true, decide_eq_true_eq]
      omega
    have hs := List.sorted_mergeSort htrans htotal orders
    have hp : (sortOrders orders).Pairwise
        (fun a b => a.orderDate ≥ b.orderDate) := by
      refine hs.imp ?_
      intro a b h
      simpa [orderDateDesc] using h
    exact hp.chain'

/-- Claim C6: the admin action is the Mark-as-Complete button (submitting
exactly the status "completed" for that order's id) precisely when the
order's status is "pending"; any other status renders only the static
Completed label, so a completed order is never offered a transition back. -/
theorem renderOrderAction_one_directional (order : Order) :
    (renderOrderAction order =
        .markCompleteButton order.id "completed" ↔
      order.status = "pending") ∧
    (order.status ≠ "pending" →
      renderOrderAction order = .completedLabel) := by
  unfold renderOrderAction
  by_cases h : order.status = "pending" <;> simp [h]

/-- Witness for C6 at a completed and at a pending sample order. -/
theorem renderOrderAction_one_directional_witness :
    renderOrderAction sampleCompleted = .completedLabel ∧
    renderOrderAction samplePending =
      .markCompleteButton samplePending.id "completed" :=
  ⟨(renderOrderAction_one_directional sampleCompleted).2 (by decide),
   (renderOrderAction_one_directional samplePending).1.mpr (by decide)⟩

/-- Claim C7: in the document-database variant, when the Identity Provider
reports not-signed-in, initOrderPage alerts, redirects to login.html, leaves
the cart untouched and installs no submit handler, so no submission — however
formed — constructs an order or reaches createOrder. -/
theorem initOrderPage_not_signed_in_blocks (cart : Option CartItem)
    (submission : Option SubmitInput) :
    (initOrderPage false cart submission).redirectedTo = some "login.html" ∧
    (initOrderPage false cart submission).gateAlert =
      some "Please log in to place an order." ∧
    (initOrderPage false cart submission).backendCalls = [] ∧
    (initOrderPage false cart submission).cartAfter = cart := by
  simp [initOrderPage]

/-- Claim C8: with all three required fields filled but no cart item, the
submit handler makes no backend call and raises the no-items alert, which
differs from every possible aggregated missing-fields message. -/
theorem submit_empty_cart_distinct_failure
    (now orderDate : Nat) (name email phone address deliveryType : String)
    (saveOutcome : Except String Bool)
    (hn : name ≠ "") (he : email ≠ "") (hp : phone ≠ "") :
    (submitOrder now orderDate name email phone address deliveryType none
        saveOutcome).backendCalls = [] ∧
    (submitOrder now orderDate name email phone address deliveryType none
        saveOutcome).alertMsg = some noItemsMsg ∧
    ∀ n e p : String,
      noItemsMsg ≠ missingFieldsMessage (missingFieldsList n e p) := by
  refine ⟨by simp [submitOrder, hn, he, hp],
    by simp [submitOrder, hn, he, hp], ?_⟩
  intro n e p
  by_cases h1 : n = "" <;> by_cases h2 : e = "" <;> by_cases h3 : p = "" <;>
    simp only [missingFieldsList, missingFieldsMessage, h1, h2, h3,
      if_true, if_false] <;> decide

/-- Witness for C8 at a concrete filled form with an empty cart. -/
theorem submit_empty_cart_distinct_failure_witness :
    (submitOrder 1 2 "Ada" "ada@x.io" "555" "" "pickup" none
        (.ok true)).backendCalls = [] ∧
    (submitOrder 1 2 "Ada" "ada@x.io" "555" "" "pickup" none
        (.ok true)).alertMsg = some noItemsMsg ∧
    noItemsMsg ≠ missingFieldsMessage (missingFieldsList "" "x" "") :=
  ⟨(submit_empty_cart_distinct_failure 1 2 "Ada" "ada@x.io" "555" ""
      "pickup" (.ok true) (by decide) (by decide) (by decide)).1,
   (submit_empty_cart_distinct_failure 1 2 "Ada" "ada@x.io" "555" ""
      "pickup" (.ok true) (by decide) (by decide) (by decide)).2.1,
   (submit_empty_cart_distinct_failure 1 2 "Ada" "ada@x.io" "555" ""
      "pickup" (.ok true) (by decide) (by decide) (by decide)).2.2 "" "x" ""⟩

/-- Counterexample to C9 as stated: a catalog fetch failure whose error
message is "Failed to fetch" (the ordinary browser network error), on the
https: protocol, takes the local-file/CORS warning branch, so the product
grid is not replaced with the could-not-load message. -/
theorem loadProducts_fetch_failed_branch_skips_grid :
    ("https:" : String) ≠ "file:" ∧
    (loadProducts "https:" true (.error "Failed to fetch")).gridHtml ≠
      some couldNotLoadHtml ∧
    (loadProducts "https:" true (.error "Failed to fetch")).gridHtml =
      none := by
  have hnone : (loadProducts "https:" true
      (.error "Failed to fetch")).gridHtml = none := by decide
  refine ⟨by decide, ?_, hnone⟩
  rw [hnone]
  simp

/-- Claim C9 amended: for every catalog fetch failure while not on the file:
protocol whose error message does not contain "Failed to fetch", loadProducts
resolves with allProducts empty (as it does on every failure) and, when the
product-grid element is present, replaces the grid content with the
could-not-load message. -/
theorem loadProducts_other_error_shows_grid_message
    (protocol msg : String) (gridPresent : Bool)
    (hprot : protocol ≠ "file:")
    (hmsg : strIncludes msg "Failed to fetch" = false) :
    (loadProducts protocol gridPresent (.error msg)).allProducts = [] ∧
    (loadProducts protocol true (.error msg)).gridHtml =
      some couldNotLoadHtml := by
  have hc : ¬ (protocol = "file:" ∨ strIncludes msg "Failed to fetch" = true) := by
    intro h
    rcases h with h | h
    · exact hprot h
    · rw [hmsg] at h
      exact Bool.false_ne_true h
  constructor
  · simp only [loadProducts]
    split <;> rfl
  · simp [loadProducts, hc]

/-- Witness for C9's amended claim at an HTTP-status error off file:. -/
theorem loadProducts_other_error_shows_grid_message_witness :
    (loadProducts "https:" true
        (.error "HTTP error! status: 500")).allProducts = [] ∧
    (loadProducts "https:" true
        (.error "HTTP error! status: 500")).gridHtml =
      some couldNotLoadHtml :=
  ⟨(loadProducts_other_error_shows_grid_message "https:"
      "HTTP error! status: 500" true (by decide) (by decide)).1,
   (loadProducts_other_error_shows_grid_message "https:"
      "HTTP error! status: 500" true (by decide) (by decide)).2⟩

/-- Claim C10: a document saved by saveOrder stores the client-generated id
inside its data, and since `{id: doc.id, ...data}` lets the stored field win,
fetching it back yields a record carrying the client id instead of the
backend-assigned document key; updateOrder on such a fetched record addresses
the document keyed by the client id, not the original document. The second
conjunct states the general override: any document whose data contains an id
field is fetched with that field, whatever its key. -/
theorem firestore_id_does_not_round_trip {α : Type}
    (order : FsRecord α) (store : FsStore α) (genKey : String) (n : Nat)
    (hfresh : ∀ p ∈ store, p.1 ≠ FsId.docStr genKey)
    (hid : order.id = .clientNum n) :
    getOrderById (saveOrder genKey order store) (.docStr genKey) =
      some { id := order.id, rest := order.rest } ∧
    (∀ (key : FsId) (d : FsData α) (i : FsId),
      d.idField = some i → (docToRecord key d).id = i) ∧
    updateOrderTargetKey
        ({ id := order.id, rest := order.rest } : FsRecord α) ≠
      .docStr genKey := by
  refine ⟨?_, ?_, ?_⟩
  · have h1 : store.find? (fun p => p.1 = FsId.docStr genKey) = none :=
      List.find?_eq_none.mpr fun x hx => by simpa using hfresh x hx
    simp [getOrderById, saveOrder, List.find?_append, h1, docToRecord]
  · intro key d i h
    simp [docToRecord, h]
  · simp only [updateOrderTargetKey, hid]
    intro h
    exact FsId.noConfusion h

/-- Witness for C10 at a concrete order with client id 111 saved under the
backend-assigned key "abc" in an empty collection. -/
theorem firestore_id_does_not_round_trip_witness :
    getOrderById (saveOrder "abc" ⟨.clientNum 111, (0 : Nat)⟩ [])
        (.docStr "abc") = some ⟨.clientNum 111, (0 : Nat)⟩ ∧
    updateOrderTargetKey (⟨.clientNum 111, (0 : Nat)⟩ : FsRecord Nat) ≠
      .docStr "abc" :=
  ⟨(firestore_id_does_not_round_trip ⟨.clientNum 111, (0 : Nat)⟩ [] "abc" 111
      (by simp) rfl).1,
   (firestore_id_does_not_round_trip ⟨.clientNum 111, (0 : Nat)⟩ [] "abc" 111
      (by simp) rfl).2.2⟩

end IceShop
